import Mathlib

/-!
Verification of the electron-osa-bridge marshaling/dispatch core.

The repository exposes its surface in four headers:
`src/native/types.h` (the `ParsedAEParam` and `AEEventData` structs),
`src/native/parser.h` (descriptor parsing declarations),
`src/native/handler.h` (global state `tsfn`, `handlers`, the `HandleAE`
trampoline and the `addHandler` / `setDispatch` entry points) and
`src/native/utils.h` (four-character-code helpers).  The structs are
embedded directly from `types.h`; the bodies of the declared functions are
not part of the repository's sources, so they are modelled from the design
specification, as marked on each definition.
-/

set_option autoImplicit false

namespace OSABridge

/-- Shallow model of a native `AEDesc`: a self-describing container whose
declared kind is text, an integer encoding, a real-number encoding, a
boolean encoding, a list container, a record container, a zero-length null
descriptor, or anything else (an unrecognized/malformed kind, carried with
its raw type tag and data length).  The `double` payload of a real-number
descriptor is copied verbatim by every operation modelled here, so it is
represented by a rational number. -/
inductive AEDesc : Type where
  | text : String → AEDesc
  | integer : Int → AEDesc
  | realNum : Rat → AEDesc
  | boolean : Bool → AEDesc
  | list : List AEDesc → AEDesc
  | record : List (String × AEDesc) → AEDesc
  | nullDesc : AEDesc
  | other : String → Nat → AEDesc

/-- `ParsedAEParam` from `src/native/types.h` (lines 9-26): a key, a type
string, the three scalar payload slots, six tag flags, and the two
container payloads.  The struct is recursive through its `arrayItems`
vector and its `objectProps` map (a `std::map<std::string, ParsedAEParam>`,
modelled as a key-sorted association list), so it is an inductive type with
one constructor; field accessors follow.  Field order matches the C++
declaration order. -/
inductive ParsedAEParam : Type where
  | mk : (key type stringValue : String) → (numberValue : Rat) →
      (boolValue isString isNumber isBool isNull : Bool) →
      (arrayItems : List ParsedAEParam) →
      (objectProps : List (String × ParsedAEParam)) →
      (isArray isObject : Bool) → ParsedAEParam

@[simp] def ParsedAEParam.key : ParsedAEParam → String
  | .mk k _ _ _ _ _ _ _ _ _ _ _ _ => k

@[simp] def ParsedAEParam.type : ParsedAEParam → String
  | .mk _ t _ _ _ _ _ _ _ _ _ _ _ => t

@[simp] def ParsedAEParam.stringValue : ParsedAEParam → String
  | .mk _ _ sv _ _ _ _ _ _ _ _ _ _ => sv

@[simp] def ParsedAEParam.numberValue : ParsedAEParam → Rat
  | .mk _ _ _ nv _ _ _ _ _ _ _ _ _ => nv

@[simp] def ParsedAEParam.boolValue : ParsedAEParam → Bool
  | .mk _ _ _ _ bv _ _ _ _ _ _ _ _ => bv

@[simp] def ParsedAEParam.isString : ParsedAEParam → Bool
  | .mk _ _ _ _ _ s _ _ _ _ _ _ _ => s

@[simp] def ParsedAEParam.isNumber : ParsedAEParam → Bool
  | .mk _ _ _ _ _ _ n _ _ _ _ _ _ => n

@[simp] def ParsedAEParam.isBool : ParsedAEParam → Bool
  | .mk _ _ _ _ _ _ _ b _ _ _ _ _ => b

@[simp] def ParsedAEParam.isNull : ParsedAEParam → Bool
  | .mk _ _ _ _ _ _ _ _ nl _ _ _ _ => nl

@[simp] def ParsedAEParam.arrayItems : ParsedAEParam → List ParsedAEParam
  | .mk _ _ _ _ _ _ _ _ _ items _ _ _ => items

@[simp] def ParsedAEParam.objectProps : ParsedAEParam → List (String × ParsedAEParam)
  | .mk _ _ _ _ _ _ _ _ _ _ props _ _ => props

@[simp] def ParsedAEParam.isArray : ParsedAEParam → Bool
  | .mk _ _ _ _ _ _ _ _ _ _ _ a _ => a

@[simp] def ParsedAEParam.isObject : ParsedAEParam → Bool
  | .mk _ _ _ _ _ _ _ _ _ _ _ _ o => o

/-- The `ParsedAEParam()` default constructor from `types.h` lines 23-24:
`numberValue(0), boolValue(false), isString(false), isNumber(false),
isBool(false), isNull(true), isArray(false), isObject(false)`, with the
strings and containers default-initialized to empty. -/
def nullParam : ParsedAEParam :=
  .mk "" "null" "" 0 false false false false true [] [] false false

/-- A parsed value carrying the String tag (only `isString` set). -/
def mkStringParam (s : String) : ParsedAEParam :=
  .mk "" "text" s 0 false true false false false [] [] false false

/-- A parsed value carrying the Number tag (only `isNumber` set). -/
def mkNumberParam (q : Rat) : ParsedAEParam :=
  .mk "" "number" "" q false false true false false [] [] false false

/-- A parsed value carrying the Bool tag (only `isBool` set). -/
def mkBoolParam (b : Bool) : ParsedAEParam :=
  .mk "" "boolean" "" 0 b false false true false [] [] false false

/-- A parsed value carrying the Array tag (only `isArray` set). -/
def mkArrayParam (items : List ParsedAEParam) : ParsedAEParam :=
  .mk "" "list" "" 0 false false false false false items [] true false

/-- A parsed value carrying the Object tag (only `isObject` set). -/
def mkObjectParam (props : List (String × ParsedAEParam)) : ParsedAEParam :=
  .mk "" "record" "" 0 false false false false false [] props false true

/-- Keyed insertion into the model of `std::map<std::string, ParsedAEParam>`:
the association list is kept sorted by key, and inserting an existing key
replaces its value. -/
def mapInsert (k : String) (v : ParsedAEParam) :
    List (String × ParsedAEParam) → List (String × ParsedAEParam)
  | [] => [(k, v)]
  | (k', v') :: rest =>
      if k < k' then (k, v) :: (k', v') :: rest
      else if k = k' then (k, v) :: rest
      else (k', v') :: mapInsert k v rest

/-- Build a `std::map` model by inserting the pairs left to right, as the
C++ parser does when it fills `objectProps` field by field. -/
def buildMap (l : List (String × ParsedAEParam)) :
    List (String × ParsedAEParam) :=
  l.foldl (fun m kv => mapInsert kv.1 kv.2 m) []

mutual

/-- Modelled from the spec: the body of `AEDescToParsedParam` (declared in
`src/native/parser.h` line 8) is not under `src/`.  Spec 4.1: dispatch on
the container's declared kind — Text → String; integer/real encodings →
Number stored as double; boolean encodings → Bool; list container → Array,
recursing on each element in order; record container → Object, recursing
on each field keyed by its four-character identifier; anything
unrecognized, zero-length, or malformed → Null.  A total function: it
never fails and never throws. -/
def AEDescToParsedParam : AEDesc → ParsedAEParam
  | .text s => mkStringParam s
  | .integer n => mkNumberParam (n : Rat)
  | .realNum q => mkNumberParam q
  | .boolean b => mkBoolParam b
  | .list ds => mkArrayParam (parseItems ds)
  | .record fs => mkObjectParam (buildMap (parseFields fs))
  | .nullDesc => nullParam
  | .other _ _ => nullParam

/-- Modelled from the spec: recursion of `AEDescToParsedParam` over the
elements of a list container, preserving order (spec 4.1). -/
def parseItems : List AEDesc → List ParsedAEParam
  | [] => []
  | d :: ds => AEDescToParsedParam d :: parseItems ds

/-- Modelled from the spec: recursion of `AEDescToParsedParam` over the
fields of a record container, keeping each field's four-character key
(spec 4.1); the resulting pairs are then inserted into the `objectProps`
map in field order. -/
def parseFields : List (String × AEDesc) → List (String × ParsedAEParam)
  | [] => []
  | (k, d) :: fs => (k, AEDescToParsedParam d) :: parseFields fs

end

/-- Number of tag flags set on a parsed value. -/
def tagCount (p : ParsedAEParam) : Nat :=
  (if p.isString then 1 else 0) + (if p.isNumber then 1 else 0) +
  (if p.isBool then 1 else 0) + (if p.isNull then 1 else 0) +
  (if p.isArray then 1 else 0) + (if p.isObject then 1 else 0)

mutual

/-- Exactly one of the six tag flags is set, recursively through the
`arrayItems` and `objectProps` children. -/
def wellTagged : ParsedAEParam → Bool
  | p@(.mk _ _ _ _ _ _ _ _ _ items props _ _) =>
      decide (tagCount p = 1) && wellTaggedItems items && wellTaggedProps props

/-- All members of an `arrayItems` vector are well tagged. -/
def wellTaggedItems : List ParsedAEParam → Bool
  | [] => true
  | p :: rest => wellTagged p && wellTaggedItems rest

/-- All values of an `objectProps` map are well tagged. -/
def wellTaggedProps : List (String × ParsedAEParam) → Bool
  | [] => true
  | (_, p) :: rest => wellTagged p && wellTaggedProps rest

end

mutual

/-- Modelled from the spec: the value-encoding half of the Reply Marshaler
(spec 4.5, inverse of the 4.1 mapping; no reply-building code is under
`src/`): a String-, Number-, Bool-tagged value goes back to the matching
native descriptor kind (the double payload copied verbatim), containers
recurse, and a Null-tagged value becomes the null descriptor. -/
def encodeParsed : ParsedAEParam → AEDesc
  | .mk _ _ sv nv bv s n b _ items props a o =>
      if s then .text sv
      else if n then .realNum nv
      else if b then .boolean bv
      else if a then .list (encodeItems items)
      else if o then .record (encodeProps props)
      else .nullDesc

/-- Modelled from the spec: encoding of an `arrayItems` vector back into a
list container, in order (spec 4.5). -/
def encodeItems : List ParsedAEParam → List AEDesc
  | [] => []
  | p :: rest => encodeParsed p :: encodeItems rest

/-- Modelled from the spec: encoding of an `objectProps` map back into a
record container (spec 4.5). -/
def encodeProps : List (String × ParsedAEParam) → List (String × AEDesc)
  | [] => []
  | (k, p) :: rest => (k, encodeParsed p) :: encodeProps rest

end

/-- `AEEventData` from `src/native/types.h` (lines 29-39): suite and event
codes, the thread-safe parsed parameter map, the target and source
application identifiers (plain strings — no presence flag), and the
transaction id with its explicit `hasTransaction` presence flag. -/
structure AEEventData : Type where
  suite : String
  event : String
  params : List (String × ParsedAEParam)
  targetApp : String
  sourceApp : String
  transactionID : Int
  hasTransaction : Bool

/-- The `AEEventData()` default constructor from `types.h` line 38:
`transactionID(0), hasTransaction(false)`, with the strings
default-initialized to empty and the map to empty. -/
def initAEEventData : AEEventData :=
  { suite := "", event := "", params := [], targetApp := "", sourceApp := "",
    transactionID := 0, hasTransaction := false }

/-- An addressing descriptor attached to an incoming message: either the
message carries no such descriptor, or it carries an application
identifier string. -/
inductive RawAddr : Type where
  | absent : RawAddr
  | appId : String → RawAddr

/-- Modelled from the spec: resolution of one addressing descriptor
(spec 4.2 — "resolve sender and target application identifiers if the
message carries addressing descriptors, leaving them absent otherwise").
`AEEventData` stores the identifiers as plain strings, so an absent
descriptor leaves the default empty string. -/
def resolveAddr : RawAddr → String
  | .absent => ""
  | .appId s => s

/-- An incoming Apple Event as handed to the trampoline by the OS: suite
and event four-character codes (string-encoded), the declared user-facing
parameters (structural/reserved attribute keys already excluded, per
spec 4.2), the two addressing descriptors, and the optional transaction
identifier. -/
structure RawAppleEvent : Type where
  suite : String
  event : String
  params : List (String × AEDesc)
  target : RawAddr
  source : RawAddr
  transaction : Option Int

/-- Set the `key` field of a parsed parameter to the four-character key it
was found under, as `ParseAEParametersThreadSafe` records it. -/
def withKey (k : String) : ParsedAEParam → ParsedAEParam
  | .mk _ t sv nv bv s n b nl items props a o =>
      .mk k t sv nv bv s n b nl items props a o

/-- Modelled from the spec: the body of `ParseAEParametersThreadSafe`
(declared in `src/native/parser.h` line 13) is not under `src/`.
Spec 4.2: enumerate the declared parameters and parse each via
`AEDescToParsedParam`, filling the thread-safe `params` map keyed by each
parameter's four-character identifier. -/
def ParseAEParametersThreadSafe (params : List (String × AEDesc)) :
    List (String × ParsedAEParam) :=
  buildMap (params.map fun kv => (kv.1, withKey kv.1 (AEDescToParsedParam kv.2)))

/-- Modelled from the spec: the body of `ParseTargetApplication` (declared
in `src/native/parser.h` line 17) is not under `src/`.  Spec 4.2: resolve
the sender and target application identifiers into the event data if the
message carries addressing descriptors, leaving them absent (the empty
string, the field's default) otherwise. -/
def ParseTargetApplication (target source : RawAddr) (d : AEEventData) :
    AEEventData :=
  { d with targetApp := resolveAddr target, sourceApp := resolveAddr source }

/-- Modelled from the spec: the Event Snapshot Builder (spec 4.2, the
snapshot-building part of `HandleAE` whose body is not under `src/`):
string-encode suite and event codes, parse the parameters, resolve
addressing, and set the transaction id with its presence flag only if the
message actually declares one. -/
def buildSnapshot (e : RawAppleEvent) : AEEventData :=
  ParseTargetApplication e.target e.source
    { suite := e.suite, event := e.event,
      params := ParseAEParametersThreadSafe e.params,
      targetApp := "", sourceApp := "",
      transactionID := match e.transaction with | some t => t | none => 0,
      hasTransaction := match e.transaction with | some _ => true | none => false }

/-- `noErr`, the native success status. -/
def noErr : Int := 0

/-- `errAEEventNotHandled`, the native "not handled" status returned when
no dispatch callback is installed. -/
def errAEEventNotHandled : Int := -1708

/-- `errAEEventFailed`, the native error code the reply marshaler writes
when the runtime callback fails. -/
def errAEEventFailed : Int := -10000

/-- An error thrown by (or returned from) the runtime callback, carrying
its human-readable message. -/
structure JsError : Type where
  message : String

/-- The outcome of one runtime callback execution: a returned value or a
thrown error. -/
inductive JsResult : Type where
  | ok : ParsedAEParam → JsResult
  | err : JsError → JsResult

/-- The semantics of the installed runtime callbacks: callback identities
are numbered, and `behavior` maps a callback identity and the delivered
snapshot to what that callback does. -/
def Behavior : Type := Nat → AEEventData → JsResult

/-- The native reply Apple Event: a mutable parameter list the trampoline
fills before returning. -/
structure AEReply : Type where
  params : List (String × AEDesc)

/-- The reply slot as handed in by the OS, before anything is written. -/
def emptyReply : AEReply := { params := [] }

/-- `AEPutParamDesc` on the reply: set a keyed parameter, replacing any
existing descriptor under the same key. -/
def putReplyParam (r : AEReply) (k : String) (d : AEDesc) : AEReply :=
  { params := (r.params.filter fun kv => kv.1 ≠ k) ++ [(k, d)] }

/-- Modelled from the spec: the error half of the Reply Marshaler
(spec 4.5 and 7 — no reply-building code is under `src/`): write the
standard reply-error parameters, `errn` carrying a non-zero native error
code and `errs` carrying a non-empty human-readable message (the thrown
error's message, or a fixed fallback when that message is empty). -/
def writeReplyError (r : AEReply) (e : JsError) : AEReply :=
  putReplyParam (putReplyParam r "errn" (.integer errAEEventFailed))
    "errs" (.text (if e.message = "" then "Unknown error" else e.message))

/-- Modelled from the spec: the success half of the Reply Marshaler
(spec 4.5): encode the callback's returned value into the reply's direct
object parameter. -/
def writeReplyValue (r : AEReply) (v : ParsedAEParam) : AEReply :=
  putReplyParam r "----" (encodeParsed v)

/-- The process-wide global state from `src/native/handler.h` lines 8-10:
`tsfn`, the single JS dispatcher slot (the installed callback's identity,
or none), and `handlers`, the `NSMutableDictionary` mapping
"suite+event" keys to true (modelled as the list of present keys).  The
`invocations` log records, in order, every runtime callback invocation the
trampoline has handed across the thread boundary, with the snapshot it
delivered. -/
structure BridgeState : Type where
  tsfn : Option Nat
  handlers : List String
  invocations : List (Nat × AEEventData)

/-- The process-wide state at addon load: no dispatcher installed, no
handler interest recorded, nothing invoked. -/
def initBridgeState : BridgeState :=
  { tsfn := none, handlers := [], invocations := [] }

/-- Insert a "suite+event" key into the `handlers` dictionary: a key
already present maps to true again (no growth), a new key is added. -/
def addHandlerKey (h : List String) (k : String) : List String :=
  if k ∈ h then h else h ++ [k]

/-- Modelled from the spec: the body of `addHandler` (declared in
`src/native/handler.h` line 16) is not under `src/`.  Spec 4.3:
`registerInterest(suite, event)` inserts the (suite,event) key into the
process-wide `handlers` table — `handlers` maps "suite+event → true" per
the header comment — idempotently and without any failure path. -/
def addHandler (st : BridgeState) (suite event : String) : BridgeState :=
  { st with handlers := addHandlerKey st.handlers (suite ++ event) }

/-- Modelled from the spec: the body of `setDispatch` (declared in
`src/native/handler.h` line 19) is not under `src/`.  Spec 4.3:
`setDispatchCallback(fn)` installs the single process-wide callback slot
`tsfn`, replacing any previous callback (last write wins). -/
def setDispatch (st : BridgeState) (cb : Nat) : BridgeState :=
  { st with tsfn := some cb }

/-- Modelled from the spec: the body of `HandleAE` (declared in
`src/native/handler.h` line 13) is not under `src/`.  Spec 4.4: build the
snapshot; if no callback is installed return `errAEEventNotHandled` at
once, dropping the event (nothing is buffered); otherwise hand the
snapshot to the installed callback, capture its returned value or thrown
error, marshal that into the reply slot via the Reply Marshaler, and
return a success status.  Returns (native status, written reply slot,
new process state). -/
def HandleAE (behavior : Behavior) (st : BridgeState) (evt : RawAppleEvent)
    (reply : AEReply) : Int × AEReply × BridgeState :=
  let snap := buildSnapshot evt
  match st.tsfn with
  | none => (errAEEventNotHandled, reply, st)
  | some cb =>
      let st' := { st with invocations := st.invocations ++ [(cb, snap)] }
      match behavior cb snap with
      | .ok v => (noErr, writeReplyValue reply v, st')
      | .err e => (noErr, writeReplyError reply e, st')

/-- One externally triggered operation on the bridge: the runtime installs
interest or a dispatcher, or the OS fires an event at the trampoline. -/
inductive BridgeOp : Type where
  | addHandlerOp : String → String → BridgeOp
  | setDispatchOp : Nat → BridgeOp
  | fireEvent : RawAppleEvent → BridgeOp

/-- Apply one operation to the process state. -/
def stepOp (behavior : Behavior) (st : BridgeState) : BridgeOp → BridgeState
  | .addHandlerOp s e => addHandler st s e
  | .setDispatchOp cb => setDispatch st cb
  | .fireEvent evt => (HandleAE behavior st evt emptyReply).2.2

/-- Run a sequence of operations from a starting state. -/
def runOps (behavior : Behavior) (st : BridgeState) : List BridgeOp → BridgeState
  | [] => st
  | op :: rest => runOps behavior (stepOp behavior st op) rest

/-- `AEGetParamDesc` on a reply: read the descriptor stored under a key,
as the sending application observes the reply. -/
def lookupParam (k : String) : List (String × AEDesc) → Option AEDesc
  | [] => none
  | (k', d) :: rest => if k = k' then some d else lookupParam k rest

/-- A concrete incoming event (the spec's concrete scenario: suite "core",
event "getd", one parameter "kocl" holding the text "window"). -/
def sampleEvent : RawAppleEvent :=
  { suite := "core", event := "getd",
    params := [("kocl", AEDesc.text "window")],
    target := RawAddr.absent, source := RawAddr.absent, transaction := none }

/-- A runtime callback that returns the string "ok" for every event. -/
def behaviorOk : Behavior := fun _ _ => JsResult.ok (mkStringParam "ok")

/-- A runtime callback that throws for every event. -/
def behaviorThrow : Behavior := fun _ _ => JsResult.err { message := "boom" }

/-- A process state with one pre-registered handler key and no dispatcher. -/
def sampleRegistryState : BridgeState :=
  { tsfn := none, handlers := ["aevtodoc"], invocations := [] }

/-! ## Supporting lemmas -/

theorem parseItems_eq_map : ∀ ds : List AEDesc,
    parseItems ds = ds.map AEDescToParsedParam
  | [] => by simp [parseItems]
  | d :: ds => by simp [parseItems, parseItems_eq_map ds]

theorem parseFields_map_fst : ∀ fs : List (String × AEDesc),
    (parseFields fs).map Prod.fst = fs.map Prod.fst
  | [] => by simp [parseFields]
  | (k, d) :: fs => by simp [parseFields, parseFields_map_fst fs]

theorem mem_keys_mapInsert (a k : String) (v : ParsedAEParam) :
    ∀ m : List (String × ParsedAEParam),
      (a ∈ (mapInsert k v m).map Prod.fst ↔ a = k ∨ a ∈ m.map Prod.fst)
  | [] => by simp [mapInsert]
  | (k', v') :: rest => by
      by_cases h1 : k < k'
      · simp [mapInsert, h1]
      · by_cases h2 : k = k'
        · subst h2
          simp [mapInsert, h1]
        · have ih := mem_keys_mapInsert a k v rest
          simp [mapInsert, h1, h2, ih]
          tauto

theorem mem_keys_foldl (a : String) :
    ∀ (l acc : List (String × ParsedAEParam)),
      (a ∈ (l.foldl (fun m kv => mapInsert kv.1 kv.2 m) acc).map Prod.fst ↔
        a ∈ acc.map Prod.fst ∨ a ∈ l.map Prod.fst)
  | [], acc => by simp
  | kv :: rest, acc => by
      have ih := mem_keys_foldl a rest (mapInsert kv.1 kv.2 acc)
      simp only [List.foldl_cons] at ih ⊢
      rw [ih, mem_keys_mapInsert]
      simp only [List.map_cons, List.mem_cons]
      tauto

theorem mem_keys_buildMap (a : String) (l : List (String × ParsedAEParam)) :
    a ∈ (buildMap l).map Prod.fst ↔ a ∈ l.map Prod.fst := by
  rw [buildMap, mem_keys_foldl]
  simp

theorem wellTaggedProps_mapInsert (k : String) (v : ParsedAEParam)
    (hv : wellTagged v = true) :
    ∀ m : List (String × ParsedAEParam),
      wellTaggedProps m = true → wellTaggedProps (mapInsert k v m) = true
  | [], _ => by simp [mapInsert, wellTaggedProps, hv]
  | (k', v') :: rest, hm => by
      rw [wellTaggedProps] at hm
      simp only [Bool.and_eq_true] at hm
      by_cases h1 : k < k'
      · simp [mapInsert, h1, wellTaggedProps, hv, hm.1, hm.2]
      · by_cases h2 : k = k'
        · simp [mapInsert, h1, h2, wellTaggedProps, hv, hm.2]
        · have ih := wellTaggedProps_mapInsert k v hv rest hm.2
          simp [mapInsert, h1, h2, wellTaggedProps, hm.1, ih]

theorem wellTaggedProps_foldl :
    ∀ (l acc : List (String × ParsedAEParam)),
      (∀ kv ∈ l, wellTagged kv.2 = true) → wellTaggedProps acc = true →
      wellTaggedProps (l.foldl (fun m kv => mapInsert kv.1 kv.2 m) acc) = true
  | [], _, _, hacc => hacc
  | kv :: rest, acc, hl, hacc => by
      have hhead : wellTagged kv.2 = true := hl kv (List.mem_cons_self _ _)
      have htail : ∀ kv' ∈ rest, wellTagged kv'.2 = true :=
        fun kv' h => hl kv' (List.mem_cons_of_mem _ h)
      have hacc' := wellTaggedProps_mapInsert kv.1 kv.2 hhead acc hacc
      simpa only [List.foldl_cons] using
        wellTaggedProps_foldl rest (mapInsert kv.1 kv.2 acc) htail hacc'

theorem wellTaggedProps_buildMap (l : List (String × ParsedAEParam))
    (hl : ∀ kv ∈ l, wellTagged kv.2 = true) :
    wellTaggedProps (buildMap l) = true :=
  wellTaggedProps_foldl l [] hl (by rw [wellTaggedProps])

mutual

theorem wellTagged_parse : ∀ d : AEDesc,
    wellTagged (AEDescToParsedParam d) = true
  | .text s => by
      simp [AEDescToParsedParam, mkStringParam, wellTagged, wellTaggedItems,
        wellTaggedProps, tagCount]
  | .integer n => by
      simp [AEDescToParsedParam, mkNumberParam, wellTagged, wellTaggedItems,
        wellTaggedProps, tagCount]
  | .realNum q => by
      simp [AEDescToParsedParam, mkNumberParam, wellTagged, wellTaggedItems,
        wellTaggedProps, tagCount]
  | .boolean b => by
      simp [AEDescToParsedParam, mkBoolParam, wellTagged, wellTaggedItems,
        wellTaggedProps, tagCount]
  | .list ds => by
      have h := wellTagged_items ds
      simp [AEDescToParsedParam, mkArrayParam, wellTagged, wellTaggedItems,
        wellTaggedProps, tagCount, h]
  | .record fs => by
      have h := wellTaggedProps_buildMap (parseFields fs) (wellTagged_fields fs)
      simp [AEDescToParsedParam, mkObjectParam, wellTagged, wellTaggedItems,
        tagCount, h]
  | .nullDesc => by
      simp [AEDescToParsedParam, nullParam, wellTagged, wellTaggedItems,
        wellTaggedProps, tagCount]
  | .other t len => by
      simp [AEDescToParsedParam, nullParam, wellTagged, wellTaggedItems,
        wellTaggedProps, tagCount]

theorem wellTagged_items : ∀ ds : List AEDesc,
    wellTaggedItems (parseItems ds) = true
  | [] => by rw [parseItems, wellTaggedItems]
  | d :: ds => by
      have h1 := wellTagged_parse d
      have h2 := wellTagged_items ds
      simp [parseItems, wellTaggedItems, h1, h2]

theorem wellTagged_fields : ∀ fs : List (String × AEDesc),
    ∀ kv ∈ parseFields fs, wellTagged kv.2 = true
  | [] => by simp [parseFields]
  | (k, d) :: fs => by
      intro kv hkv
      rw [parseFields] at hkv
      rcases List.mem_cons.mp hkv with h | h
      · subst h
        exact wellTagged_parse d
      · exact wellTagged_fields fs kv h

end

/-! ## Claim theorems -/

/-- Claim C1: `AEDescToParsedParam` is total — for every input descriptor,
of any declared kind, it returns a `ParsedAEParam` (its type has no error
channel, so the degradation is never surfaced to any caller), and any
unrecognized, zero-length, or malformed descriptor is mapped to the
Null-tagged default value. -/
theorem parse_total_and_malformed_to_null :
    (∀ d : AEDesc, ∃ p : ParsedAEParam, AEDescToParsedParam d = p) ∧
    (∀ (tag : String) (len : Nat),
      AEDescToParsedParam (AEDesc.other tag len) = nullParam ∧
      (AEDescToParsedParam (AEDesc.other tag len)).isNull = true) ∧
    AEDescToParsedParam AEDesc.nullDesc = nullParam ∧
    (AEDescToParsedParam AEDesc.nullDesc).isNull = true := by
  refine ⟨fun d => ⟨AEDescToParsedParam d, rfl⟩, fun tag len => ⟨?_, ?_⟩, ?_, ?_⟩ <;>
    simp [AEDescToParsedParam, nullParam]

/-- Claim C2: every `ParsedAEParam` produced by the parser carries exactly
one of the six tag flags, recursively through all `arrayItems` and
`objectProps` children; the default-constructed value carries exactly one
tag (Null); and `wellTagged` literally asserts `tagCount = 1`, i.e. the
tag set is exhaustive and mutually exclusive. -/
theorem parsed_tags_exclusive_exhaustive :
    tagCount nullParam = 1 ∧
    (∀ d : AEDesc, wellTagged (AEDescToParsedParam d) = true) ∧
    (∀ p : ParsedAEParam, wellTagged p = true → tagCount p = 1) := by
  refine ⟨by simp [nullParam, tagCount], wellTagged_parse, fun p hp => ?_⟩
  cases p with
  | mk k t sv nv bv s n b nl items props a o =>
      rw [wellTagged] at hp
      simp only [Bool.and_eq_true, decide_eq_true_eq] at hp
      exact hp.1.1

/-- Claim C2 witness: the parsed sample parameter is well tagged, hence
has tag count one. -/
theorem parsed_tags_exclusive_exhaustive_witness :
    tagCount (AEDescToParsedParam (AEDesc.text "window")) = 1 :=
  parsed_tags_exclusive_exhaustive.2.2 (AEDescToParsedParam (AEDesc.text "window"))
    (parsed_tags_exclusive_exhaustive.2.1 (AEDesc.text "window"))

/-- Claim C3: for every scalar kind (String, Number, Bool, Null), encoding
the value through the reply marshaler's value encoder and parsing the
resulting native descriptor with `AEDescToParsedParam` reproduces the
value's payload and tag exactly. -/
theorem scalar_roundtrip :
    (∀ s : String,
      AEDescToParsedParam (encodeParsed (mkStringParam s)) = mkStringParam s) ∧
    (∀ q : Rat,
      AEDescToParsedParam (encodeParsed (mkNumberParam q)) = mkNumberParam q) ∧
    (∀ b : Bool,
      AEDescToParsedParam (encodeParsed (mkBoolParam b)) = mkBoolParam b) ∧
    AEDescToParsedParam (encodeParsed nullParam) = nullParam := by
  refine ⟨fun s => ?_, fun q => ?_, fun b => ?_, ?_⟩ <;>
    simp [encodeParsed, mkStringParam, mkNumberParam, mkBoolParam, nullParam,
      AEDescToParsedParam]

/-- Claim C4: parsing a list container preserves the order of its elements
in `arrayItems` (each element parsed in place), and parsing a record
container preserves the full set of field keys in `objectProps`; since the
element and field descriptors are themselves arbitrary, this holds at
every nesting depth. -/
theorem structural_fidelity :
    ∀ (ds : List AEDesc) (fs : List (String × AEDesc)) (a : String),
      (AEDescToParsedParam (AEDesc.list ds)).arrayItems =
        ds.map AEDescToParsedParam ∧
      (a ∈ (AEDescToParsedParam (AEDesc.record fs)).objectProps.map Prod.fst ↔
        a ∈ fs.map Prod.fst) := by
  intro ds fs a
  constructor
  · simp [AEDescToParsedParam, mkArrayParam, parseItems_eq_map]
  · simp only [AEDescToParsedParam, mkObjectParam, ParsedAEParam.objectProps]
    rw [mem_keys_buildMap, parseFields_map_fst]

theorem lookupParam_append_none (k : String) :
    ∀ l l' : List (String × AEDesc),
      lookupParam k l = none → lookupParam k (l ++ l') = lookupParam k l'
  | [], _, _ => rfl
  | (k', d) :: rest, l', h => by
      rw [lookupParam] at h
      by_cases hk : k = k'
      · simp [hk] at h
      · rw [if_neg hk] at h
        rw [List.cons_append, lookupParam, if_neg hk]
        exact lookupParam_append_none k rest l' h

theorem lookupParam_filter_preserve_none (k : String)
    (p : String × AEDesc → Bool) :
    ∀ l : List (String × AEDesc),
      lookupParam k l = none → lookupParam k (l.filter p) = none
  | [], _ => rfl
  | (k', d) :: rest, h => by
      rw [lookupParam] at h
      by_cases hk : k = k'
      · simp [hk] at h
      · rw [if_neg hk] at h
        have ih := lookupParam_filter_preserve_none k p rest h
        by_cases hp : p (k', d)
        · simpa [List.filter_cons, hp, lookupParam, hk] using ih
        · simpa [List.filter_cons, hp] using ih

theorem lookupParam_filter_self (k : String) :
    ∀ l : List (String × AEDesc),
      lookupParam k (l.filter fun kv => kv.1 ≠ k) = none
  | [] => rfl
  | (k', d) :: rest => by
      have ih := lookupParam_filter_self k rest
      by_cases hk : k' = k
      · simpa [List.filter_cons, hk] using ih
      · have hk' : ¬k = k' := fun h => hk h.symm
        simpa [List.filter_cons, hk, lookupParam, hk'] using ih

theorem writeReplyError_fields (r : AEReply) (e : JsError) :
    lookupParam "errn" (writeReplyError r e).params =
      some (AEDesc.integer errAEEventFailed) ∧
    ∃ m : String, lookupParam "errs" (writeReplyError r e).params =
      some (AEDesc.text m) ∧ m ≠ "" := by
  have hshape : (writeReplyError r e).params =
      ((r.params.filter fun kv => kv.1 ≠ "errn").filter fun kv => kv.1 ≠ "errs") ++
        ([("errn", AEDesc.integer errAEEventFailed)] ++
          [("errs", AEDesc.text (if e.message = "" then "Unknown error" else e.message))]) := by
    simp [writeReplyError, putReplyParam, List.filter_append]
  have hA : lookupParam "errn"
      ((r.params.filter fun kv => kv.1 ≠ "errn").filter fun kv => kv.1 ≠ "errs") = none :=
    lookupParam_filter_preserve_none _ _ _ (lookupParam_filter_self _ _)
  have hB : lookupParam "errs"
      ((r.params.filter fun kv => kv.1 ≠ "errn").filter fun kv => kv.1 ≠ "errs") = none :=
    lookupParam_filter_self _ _
  constructor
  · rw [hshape, lookupParam_append_none _ _ _ hA]
    simp [lookupParam]
  · refine ⟨if e.message = "" then "Unknown error" else e.message, ?_, ?_⟩
    · rw [hshape, lookupParam_append_none _ _ _ hB]
      simp [lookupParam]
    · by_cases hm : e.message = ""
      · simp [hm]
      · simp [hm]

/-- Claim C4 witness: order and key-set preservation evaluated on a
two-element list and a one-field record. -/
theorem structural_fidelity_witness :
    (AEDescToParsedParam (AEDesc.list [AEDesc.boolean true, AEDesc.nullDesc])).arrayItems =
      [AEDesc.boolean true, AEDesc.nullDesc].map AEDescToParsedParam ∧
    ("kocl" ∈ (AEDescToParsedParam
        (AEDesc.record [("kocl", AEDesc.text "window")])).objectProps.map Prod.fst ↔
      "kocl" ∈ [("kocl", AEDesc.text "window")].map Prod.fst) :=
  structural_fidelity [AEDesc.boolean true, AEDesc.nullDesc]
    [("kocl", AEDesc.text "window")] "kocl"

/-- Claim C5: when `HandleAE` runs with no dispatch callback installed
(`tsfn` empty), it returns the native "not handled" status immediately,
writes nothing into the reply slot, leaves the process state unchanged
(the event is dropped, not buffered or queued), and any later sequence of
operations produces exactly the callback invocations it would have
produced had that event never been fired — so no callback is ever later
invoked for it. -/
theorem handleAE_no_callback_drops (behavior : Behavior) (st : BridgeState)
    (evt : RawAppleEvent) (reply : AEReply) (rest : List BridgeOp)
    (h : st.tsfn = none) :
    (HandleAE behavior st evt reply).1 = errAEEventNotHandled ∧
    (HandleAE behavior st evt reply).2.1 = reply ∧
    (HandleAE behavior st evt reply).2.2 = st ∧
    (runOps behavior (HandleAE behavior st evt reply).2.2 rest).invocations =
      (runOps behavior st rest).invocations := by
  refine ⟨?_, ?_, ?_, ?_⟩ <;> simp [HandleAE, h]

/-- Claim C5 witness: firing the sample event on the initial state, where
no dispatcher is installed. -/
theorem handleAE_no_callback_drops_witness :
    (HandleAE behaviorOk initBridgeState sampleEvent emptyReply).1 =
      errAEEventNotHandled ∧
    (HandleAE behaviorOk initBridgeState sampleEvent emptyReply).2.1 = emptyReply ∧
    (HandleAE behaviorOk initBridgeState sampleEvent emptyReply).2.2 =
      initBridgeState ∧
    (runOps behaviorOk
        (HandleAE behaviorOk initBridgeState sampleEvent emptyReply).2.2
        []).invocations =
      (runOps behaviorOk initBridgeState []).invocations :=
  handleAE_no_callback_drops behaviorOk initBridgeState sampleEvent emptyReply [] rfl

/-- Claim C6: when the runtime callback throws, `HandleAE` catches the
error at its boundary, writes into the reply slot the structured
reply-error parameters — `errn` holding the non-zero native error code and
`errs` holding a non-empty message — and still returns a normal native
status (it remains a total function: no native-level fault escapes, the
hosting process stays alive). -/
theorem handleAE_error_reply (behavior : Behavior) (st : BridgeState)
    (evt : RawAppleEvent) (reply : AEReply) (cb : Nat) (e : JsError)
    (h1 : st.tsfn = some cb)
    (h2 : behavior cb (buildSnapshot evt) = JsResult.err e) :
    (HandleAE behavior st evt reply).1 = noErr ∧
    lookupParam "errn" (HandleAE behavior st evt reply).2.1.params =
      some (AEDesc.integer errAEEventFailed) ∧
    errAEEventFailed ≠ 0 ∧
    (∃ m : String,
      lookupParam "errs" (HandleAE behavior st evt reply).2.1.params =
        some (AEDesc.text m) ∧ m ≠ "") := by
  have he : HandleAE behavior st evt reply =
      (noErr, writeReplyError reply e,
        { st with invocations := st.invocations ++ [(cb, buildSnapshot evt)] }) := by
    simp [HandleAE, h1, h2]
  rw [he]
  exact ⟨rfl, (writeReplyError_fields reply e).1, by decide,
    (writeReplyError_fields reply e).2⟩

/-- Claim C6 witness: a throwing callback installed in slot 7, fired with
the sample event on a fresh reply. -/
theorem handleAE_error_reply_witness :
    (HandleAE behaviorThrow (setDispatch initBridgeState 7) sampleEvent
      emptyReply).1 = noErr ∧
    lookupParam "errn" (HandleAE behaviorThrow (setDispatch initBridgeState 7)
      sampleEvent emptyReply).2.1.params =
        some (AEDesc.integer errAEEventFailed) ∧
    errAEEventFailed ≠ 0 ∧
    (∃ m : String,
      lookupParam "errs" (HandleAE behaviorThrow (setDispatch initBridgeState 7)
        sampleEvent emptyReply).2.1.params = some (AEDesc.text m) ∧ m ≠ "") :=
  handleAE_error_reply behaviorThrow (setDispatch initBridgeState 7) sampleEvent
    emptyReply 7 { message := "boom" } rfl rfl

/-- Claim C7: `addHandler` is idempotent and total — registering the same
(suite, event) key twice leaves the registry exactly as after one call (in
particular no larger), the second call is a no-op, there is no failure
path (the function is total by construction), and registry membership only
grows: every previously present key is still present afterwards. -/
theorem addHandler_idempotent_monotone (st : BridgeState) (suite event : String) :
    addHandler (addHandler st suite event) suite event =
      addHandler st suite event ∧
    (addHandler (addHandler st suite event) suite event).handlers.length =
      (addHandler st suite event).handlers.length ∧
    ∀ k ∈ st.handlers, k ∈ (addHandler st suite event).handlers := by
  have hmem : (suite ++ event) ∈ addHandlerKey st.handlers (suite ++ event) := by
    rw [addHandlerKey]
    by_cases h : (suite ++ event) ∈ st.handlers
    · simp [h]
    · simp [h]
  have hid : addHandlerKey (addHandlerKey st.handlers (suite ++ event))
      (suite ++ event) = addHandlerKey st.handlers (suite ++ event) := by
    rw [addHandlerKey, if_pos hmem]
  refine ⟨?_, ?_, ?_⟩
  · simp [addHandler, hid]
  · simp [addHandler, hid]
  · intro k hk
    simp only [addHandler]
    rw [addHandlerKey]
    by_cases h : (suite ++ event) ∈ st.handlers
    · simpa [h] using hk
    · simp only [h, if_false]
      exact List.mem_append_left _ hk

/-- Claim C7 witness: double registration of ("core","getd") on a registry
already holding the key "aevtodoc", which survives the insertion. -/
theorem addHandler_idempotent_monotone_witness :
    addHandler (addHandler sampleRegistryState "core" "getd") "core" "getd" =
      addHandler sampleRegistryState "core" "getd" ∧
    "aevtodoc" ∈ (addHandler sampleRegistryState "core" "getd").handlers :=
  ⟨(addHandler_idempotent_monotone sampleRegistryState "core" "getd").1,
    (addHandler_idempotent_monotone sampleRegistryState "core" "getd").2.2
      "aevtodoc" (by simp [sampleRegistryState])⟩

/-- Claim C8: `setDispatch` is last-writer-wins over the single
process-wide `tsfn` slot — after installing f then g, only g is active,
and firing any subsequent event hands the snapshot to g alone: the
invocation log grows by exactly the entry (g, snapshot), and no entry for
f is added. -/
theorem setDispatch_last_writer_wins (behavior : Behavior) (st : BridgeState)
    (f g : Nat) (evt : RawAppleEvent) (reply : AEReply) :
    (setDispatch (setDispatch st f) g).tsfn = some g ∧
    (HandleAE behavior (setDispatch (setDispatch st f) g) evt
        reply).2.2.invocations =
      st.invocations ++ [(g, buildSnapshot evt)] ∧
    (f ≠ g →
      (f, buildSnapshot evt) ∉
        ((HandleAE behavior (setDispatch (setDispatch st f) g) evt
          reply).2.2.invocations.drop st.invocations.length)) := by
  have h2 : (HandleAE behavior (setDispatch (setDispatch st f) g) evt
      reply).2.2.invocations = st.invocations ++ [(g, buildSnapshot evt)] := by
    cases hb : behavior g (buildSnapshot evt) <;>
      simp [HandleAE, setDispatch, hb]
  refine ⟨rfl, h2, fun hfg => ?_⟩
  rw [h2, List.drop_left]
  simp [hfg]

/-- Claim C8 witness: callbacks 1 then 2 installed on the initial state;
firing the sample event logs an invocation of 2 only. -/
theorem setDispatch_last_writer_wins_witness :
    (setDispatch (setDispatch initBridgeState 1) 2).tsfn = some 2 ∧
    (HandleAE behaviorOk (setDispatch (setDispatch initBridgeState 1) 2)
        sampleEvent emptyReply).2.2.invocations =
      initBridgeState.invocations ++ [(2, buildSnapshot sampleEvent)] ∧
    (1, buildSnapshot sampleEvent) ∉
      ((HandleAE behaviorOk (setDispatch (setDispatch initBridgeState 1) 2)
        sampleEvent emptyReply).2.2.invocations.drop
          initBridgeState.invocations.length) :=
  ⟨(setDispatch_last_writer_wins behaviorOk initBridgeState 1 2 sampleEvent
      emptyReply).1,
    (setDispatch_last_writer_wins behaviorOk initBridgeState 1 2 sampleEvent
      emptyReply).2.1,
    (setDispatch_last_writer_wins behaviorOk initBridgeState 1 2 sampleEvent
      emptyReply).2.2 (by decide)⟩

/-- Claim C10: in `AEEventData` the application identifier fields carry no
presence flag — an absent addressing descriptor and one carrying the empty
identifier resolve to identical event data — while the transaction id
alone has the explicit `hasTransaction` flag; a freshly built
`AEEventData` has `hasTransaction` false and `transactionID` 0, and a
snapshot built from a message declaring no transaction keeps both
defaults. -/
theorem event_data_presence_model (source : RawAddr) (d : AEEventData)
    (e : RawAppleEvent) :
    initAEEventData.hasTransaction = false ∧
    initAEEventData.transactionID = 0 ∧
    initAEEventData.targetApp = "" ∧
    initAEEventData.sourceApp = "" ∧
    ParseTargetApplication RawAddr.absent source d =
      ParseTargetApplication (RawAddr.appId "") source d ∧
    ParseTargetApplication source RawAddr.absent d =
      ParseTargetApplication source (RawAddr.appId "") d ∧
    (e.transaction = none →
      (buildSnapshot e).hasTransaction = false ∧
      (buildSnapshot e).transactionID = 0) := by
  refine ⟨rfl, rfl, rfl, rfl, rfl, rfl, fun h => ?_⟩
  constructor <;> simp [buildSnapshot, ParseTargetApplication, h]

/-- Claim C10 witness: the sample event declares no transaction, and its
snapshot keeps both transaction defaults. -/
theorem event_data_presence_model_witness :
    (buildSnapshot sampleEvent).hasTransaction = false ∧
    (buildSnapshot sampleEvent).transactionID = 0 :=
  (event_data_presence_model RawAddr.absent initAEEventData
    sampleEvent).2.2.2.2.2.2 rfl

end OSABridge
